import Mathlib

/-!
Shallow embedding of the booking and tutor-search core of the Ed Share
marketplace server (`src/unnamed/part_001` booking routes, `src/admin.js`
tutor search route, `src/locationService.js` distance calculator), with
theorems settling the frozen claims about it.

Times of day travel through the system as the strings accepted by the
`express-validator` regex `^([0-1]?[0-9]|2[0-3]):[0-5][0-9]$`; the stored
conflict query compares them with MongoDB's byte-wise (lexicographic)
string comparison.  Characters are modelled through their code points
(`Char.toNat`), so `'0'` is 48, `':'` is 58, and so on.
-/

/-- Byte-wise lexicographic strict comparison on character lists: the order
MongoDB uses for `$lt`/`$gt` on ASCII string fields. -/
def lexLt : List Char → List Char → Bool
  | _, [] => false
  | [], _ :: _ => true
  | a :: as, b :: bs =>
      decide (a.toNat < b.toNat) || (decide (a.toNat = b.toNat) && lexLt as bs)

/-- `s1 < s2` in MongoDB's string order. -/
def strLt (s1 s2 : String) : Bool := lexLt s1.toList s2.toList

/-- `s1 <= s2` in MongoDB's string order. -/
def strLe (s1 s2 : String) : Bool := lexLt s1.toList s2.toList || decide (s1.toList = s2.toList)

/-- The time-format regex `^([0-1]?[0-9]|2[0-3]):[0-5][0-9]$` from the
`startTime`/`endTime` validators of `router.post('/')` in
`src/unnamed/part_001` (lines 22-23), over the character codes:
48..57 are `0`..`9`, 48..49 is `[0-1]`, 50 is `2`, 48..51 is `[0-3]`,
48..53 is `[0-5]`, and 58 is `:`.  The hour may be one digit (`9:30`)
or two digits (`09:30`). -/
def timeFormatL : List Char → Bool
  | [h, c, m1, m2] =>
      decide (48 ≤ h.toNat ∧ h.toNat ≤ 57) && decide (c.toNat = 58) &&
      decide (48 ≤ m1.toNat ∧ m1.toNat ≤ 53) && decide (48 ≤ m2.toNat ∧ m2.toNat ≤ 57)
  | [h1, h2, c, m1, m2] =>
      (decide (48 ≤ h1.toNat ∧ h1.toNat ≤ 49) && decide (48 ≤ h2.toNat ∧ h2.toNat ≤ 57) ||
       decide (h1.toNat = 50) && decide (48 ≤ h2.toNat ∧ h2.toNat ≤ 51)) &&
      decide (c.toNat = 58) &&
      decide (48 ≤ m1.toNat ∧ m1.toNat ≤ 53) && decide (48 ≤ m2.toNat ∧ m2.toNat ≤ 57)
  | _ => false

/-- A string matches the start/end time validator of the create-booking route. -/
def isTimeFormat (s : String) : Bool := timeFormatL s.toList

/-- The two-digit-hour (zero-padded) branch of the time validator:
`HH:MM` with `HH` in `00..23` and `MM` in `00..59`. -/
def paddedL : List Char → Bool
  | [h1, h2, c, m1, m2] =>
      (decide (48 ≤ h1.toNat ∧ h1.toNat ≤ 49) && decide (48 ≤ h2.toNat ∧ h2.toNat ≤ 57) ||
       decide (h1.toNat = 50) && decide (48 ≤ h2.toNat ∧ h2.toNat ≤ 51)) &&
      decide (c.toNat = 58) &&
      decide (48 ≤ m1.toNat ∧ m1.toNat ≤ 53) && decide (48 ≤ m2.toNat ∧ m2.toNat ≤ 57)
  | _ => false

/-- A time string in zero-padded `HH:MM` form. -/
def isPadded (s : String) : Bool := paddedL s.toList

/-- The chronological (minute-of-day) reading of a validator-accepted time
string, covering both the one-digit-hour and two-digit-hour forms.
Strings of any other shape read as 0. -/
def minutesL : List Char → ℕ
  | [h, _, m1, m2] => (h.toNat - 48) * 60 + (m1.toNat - 48) * 10 + (m2.toNat - 48)
  | [h1, h2, _, m1, m2] =>
      ((h1.toNat - 48) * 10 + (h2.toNat - 48)) * 60 + (m1.toNat - 48) * 10 + (m2.toNat - 48)
  | _ => 0

/-- Minute of day denoted by a time string. -/
def toMinutes (s : String) : ℕ := minutesL s.toList

/-- The three-clause `$or` disjunction of the conflict query of
`router.post('/')` (`src/unnamed/part_001` lines 107-120), read on time
points `S = startTime`, `E = endTime` of the stored booking against the
candidate `[s, e)`:
`(startTime ≤ s ∧ endTime > s) ∨ (startTime < e ∧ endTime ≥ e) ∨
 (startTime ≥ s ∧ endTime ≤ e)`. -/
def overlapClauses (S E s e : ℕ) : Prop :=
  (S ≤ s ∧ s < E) ∨ (S < e ∧ e ≤ E) ∨ (s ≤ S ∧ E ≤ e)

/-- The spec's overlap condition for `[s1,e1)` and `[s2,e2)`:
`s1 < e2 AND s2 < e1`, stated for stored `[S,E)` against candidate `[s,e)`. -/
def intervalsOverlap (S E s e : ℕ) : Prop := S < e ∧ s < E

instance (S E s e : ℕ) : Decidable (overlapClauses S E s e) := by
  unfold overlapClauses; infer_instance

instance (S E s e : ℕ) : Decidable (intervalsOverlap S E s e) := by
  unfold intervalsOverlap; infer_instance

/-- Pricing snapshot stamped on a booking (`pricing` subdocument). -/
structure Pricing where
  baseAmount : ℚ
  tax : ℚ
  totalAmount : ℚ
deriving DecidableEq

/-- The pricing calculation of `router.post('/')` (`src/unnamed/part_001`
lines 131-134): `baseAmount = pricePerHour * (duration / 60)`,
`tax = baseAmount * 0.18`, `totalAmount = baseAmount + tax`. -/
def computePrice (pricePerHour : ℚ) (duration : ℕ) : Pricing :=
  let baseAmount := pricePerHour * ((duration : ℚ) / 60)
  let tax := baseAmount * 0.18
  { baseAmount := baseAmount, tax := tax, totalAmount := baseAmount + tax }

/-- Lower-case an ASCII character (JavaScript `toLowerCase` restricted to
the ASCII letters the data uses). -/
def lowerChar (c : Char) : Char :=
  if 65 ≤ c.toNat ∧ c.toNat ≤ 90 then Char.ofNat (c.toNat + 32) else c

/-- Lower-case a string character-wise. -/
def lowerStr (s : String) : List Char := s.toList.map lowerChar

/-- A subject offering of a tutor (`tutor.subjects` array element):
name, classes taught, boards taught, price per hour. -/
structure Subject where
  name : String
  classes : List String
  boards : List String
  pricePerHour : ℚ
deriving DecidableEq

/-- The slice of a tutor profile the create-booking route consults. -/
structure TutorProfile where
  isAvailableForBooking : Bool
  subjects : List Subject
deriving DecidableEq

/-- A create-booking request body (`router.post('/')`,
`src/unnamed/part_001`).  `tutorId` and `scheduledDate` are abstracted to
numeric identifiers (a Mongo id and a calendar day). -/
structure BookingReq where
  tutorId : ℕ
  sessionType : String
  subject : String
  className : String
  board : String
  scheduledDate : ℕ
  startTime : String
  endTime : String
  duration : ℕ
  mode : String
deriving DecidableEq

/-- A cancellation record (`booking.cancellation`). -/
structure CancellationRec where
  reason : String
  cancelledBy : String
  cancelledAt : ℕ
  refundEligible : Bool
  refundAmount : ℚ
deriving DecidableEq

/-- A stored booking document. -/
structure Booking where
  id : ℕ
  student : ℕ
  tutor : ℕ
  subject : String
  className : String
  board : String
  scheduledDate : ℕ
  startTime : String
  endTime : String
  duration : ℕ
  status : String
  pricing : Pricing
  cancellation : Option CancellationRec
deriving DecidableEq

/-- The class list of the `class` validator. -/
def validClasses : List String :=
  ["LKG", "UKG", "1", "2", "3", "4", "5", "6", "7", "8", "9", "10", "11", "12"]

/-- The board list of the `board` validator. -/
def validBoards : List String := ["CBSE", "ICSE", "State Board", "IB", "IGCSE", "NIOS"]

/-- The `express-validator` chain of `router.post('/')`
(`src/unnamed/part_001` lines 15-25): session type, non-empty subject,
class, board, time formats, duration in 30..180, mode.  `tutorId` and
`scheduledDate` well-formedness is carried by their numeric types. -/
def validateBookingReq (r : BookingReq) : Bool :=
  (["demo", "regular", "assessment", "group"].contains r.sessionType) &&
  !(r.subject == "") &&
  validClasses.contains r.className &&
  validBoards.contains r.board &&
  isTimeFormat r.startTime &&
  isTimeFormat r.endTime &&
  decide (30 ≤ r.duration ∧ r.duration ≤ 180) &&
  (["online", "offline"].contains r.mode)

/-- `tutor.subjects.find(...)` of the create route (lines 79-83):
case-insensitive name equality plus class and board membership. -/
def findTutorSubject (tutor : TutorProfile) (subject className board : String) : Option Subject :=
  tutor.subjects.find? fun sub =>
    decide (lowerStr sub.name = lowerStr subject) &&
    sub.classes.contains className &&
    sub.boards.contains board

/-- The statuses the conflict query treats as occupying the slot
(`status: { $in: ['scheduled', 'confirmed', 'in_progress'] }`). -/
def isActiveStatus (st : String) : Bool :=
  (["scheduled", "confirmed", "in_progress"] : List String).contains st

/-- One stored booking matching the conflict query of `router.post('/')`
(lines 104-122) against candidate times `s`, `e`: same tutor, same date,
one of the three `$or` interval clauses (string comparisons), active
status. -/
def conflictsWith (tutorId date : ℕ) (s e : String) (b : Booking) : Bool :=
  (b.tutor == tutorId) && (b.scheduledDate == date) &&
  ((strLe b.startTime s && strLt s b.endTime) ||
   (strLt b.startTime e && strLe e b.endTime) ||
   (strLe s b.startTime && strLe b.endTime e)) &&
  isActiveStatus b.status

/-- `Booking.findOne` over the conflict query: some stored booking conflicts. -/
def hasConflict (store : List Booking) (tutorId date : ℕ) (s e : String) : Bool :=
  store.any (conflictsWith tutorId date s e)

/-- The booking document `new Booking({...})` builds (lines 137-156):
initial status `scheduled`, pricing stamped from the matched subject
offering. -/
def mkBooking (nextId studentId : ℕ) (r : BookingReq) (pricePerHour : ℚ) : Booking :=
  { id := nextId
    student := studentId
    tutor := r.tutorId
    subject := r.subject
    className := r.className
    board := r.board
    scheduledDate := r.scheduledDate
    startTime := r.startTime
    endTime := r.endTime
    duration := r.duration
    status := "scheduled"
    pricing := computePrice pricePerHour r.duration
    cancellation := none }

/-- Outcome of a create-booking request. -/
inductive CreateOutcome where
  | validationFailed
  | tutorNotAvailable
  | subjectNotTaught
  | timeNotAvailable
  | conflict
  | created (b : Booking)
deriving DecidableEq

/-- Whether a create outcome persisted a booking. -/
def isCreatedOutcome : CreateOutcome → Bool
  | .created _ => true
  | _ => false

/-- The decision pipeline of `router.post('/')` (`src/unnamed/part_001`
lines 26-158) over a booking store: validation, tutor booking-availability
flag, subject/class/board match, the tutor's availability calendar
(`tutor.isAvailable`, an external collaborator, passed as `calendarOk`),
the conflict query, then persistence.  Every rejecting branch leaves the
store unchanged. -/
def createBooking (tutor : TutorProfile) (calendarOk : Bool) (studentId nextId : ℕ)
    (store : List Booking) (r : BookingReq) : CreateOutcome × List Booking :=
  if !validateBookingReq r then (.validationFailed, store)
  else if !tutor.isAvailableForBooking then (.tutorNotAvailable, store)
  else
    match findTutorSubject tutor r.subject r.className r.board with
    | none => (.subjectNotTaught, store)
    | some sub =>
        if !calendarOk then (.timeNotAvailable, store)
        else if hasConflict store r.tutorId r.scheduledDate r.startTime r.endTime then
          (.conflict, store)
        else (.created (mkBooking nextId studentId r sub.pricePerHour),
              store ++ [mkBooking nextId studentId r sub.pricePerHour])

/-- The target statuses the `router.put('/:id/status')` validator admits
(line 354). -/
def allowedStatusTargets : List String :=
  ["confirmed", "in_progress", "completed", "cancelled", "no_show"]

/-- Modelled from the spec: `Booking.updateStatus` lives in
`models/Booking.js`, which is not under `src/`; only its caller
`router.put('/:id/status')` is.  Spec section 4.5 gives the transition
table `scheduled → confirmed → in_progress → completed | cancelled |
no_show | rescheduled`, with `rescheduled` looping back to `scheduled`;
any other transition is refused. -/
def transitionAllowed : String → String → Bool
  | "scheduled", "confirmed" => true
  | "confirmed", "in_progress" => true
  | "in_progress", "completed" => true
  | "in_progress", "cancelled" => true
  | "in_progress", "no_show" => true
  | "in_progress", "rescheduled" => true
  | "rescheduled", "scheduled" => true
  | _, _ => false

/-- The per-booking effect of `booking.updateStatus`: the matching booking
takes the new status when the transition is allowed; every other booking
is unchanged. -/
def applyStatusUpdate (bid : ℕ) (newStatus : String) (b : Booking) : Booking :=
  if b.id == bid && transitionAllowed b.status newStatus then
    { b with status := newStatus }
  else b

/-- `router.put('/:id/status')`: validator guard on the target status,
then `booking.updateStatus` on the matching booking (refused transitions
leave the booking unchanged).  Role checks do not affect the store shape
and are not modelled. -/
def updateBookingStatus (store : List Booking) (bid : ℕ) (newStatus : String) :
    List Booking :=
  if !allowedStatusTargets.contains newStatus then store
  else store.map (applyStatusUpdate bid newStatus)

/-- Modelled from the spec: `Booking.canBeCancelled` lives in
`models/Booking.js`, which is not under `src/`.  Spec section 4.4: a
booking may be cancelled only if the cancellation time is at least 2
hours (120 minutes) before `scheduledDate + startTime`.  Instants are
minutes, a day being 1440 of them. -/
def canBeCancelled (b : Booking) (now : ℕ) : Bool :=
  decide (now + 120 ≤ b.scheduledDate * 1440 + toMinutes b.startTime)

/-- Modelled from the spec: `Booking.calculateRefundAmount` lives in
`models/Booking.js`, which is not under `src/`.  Spec section 4.4: when
cancellation is permitted the refund amount equals the full total paid. -/
def calculateRefundAmount (b : Booking) : ℚ := b.pricing.totalAmount

/-- Outcome of a cancel-booking request. -/
inductive CancelOutcome where
  | notFound
  | notCancellable (message : String)
  | cancelled (refundAmount : ℚ)
deriving DecidableEq

/-- The rejection message of `router.put('/:id/cancel')` (line 456). -/
def notCancellableMessage : String :=
  "Booking cannot be cancelled. Must be cancelled at least 2 hours before the session."

/-- The booking as stored after a successful cancellation (lines 461-468):
status `cancelled` plus the cancellation record with `refundEligible:
true` and the refund amount from `calculateRefundAmount`. -/
def cancelledBooking (b : Booking) (reason role : String) (now : ℕ) : Booking :=
  { b with
      status := "cancelled"
      cancellation := some
        { reason := reason
          cancelledBy := role
          cancelledAt := now
          refundEligible := true
          refundAmount := calculateRefundAmount b } }

/-- `router.put('/:id/cancel')` (`src/unnamed/part_001` lines 413-488):
find the booking, gate on `canBeCancelled`, then store the cancellation
record and set status `cancelled`.  Role checks do not affect the store
shape and are not modelled. -/
def cancelBooking (store : List Booking) (bid : ℕ) (reason role : String) (now : ℕ) :
    CancelOutcome × List Booking :=
  match store.find? (fun b => b.id == bid) with
  | none => (.notFound, store)
  | some b =>
      if !canBeCancelled b now then (.notCancellable notCancellableMessage, store)
      else
        (.cancelled (calculateRefundAmount b),
         store.map fun x => if x.id == bid then cancelledBooking b reason role now else x)

/-- One transition of the booking store: a create request (through
`router.post('/')`), a status update (`router.put('/:id/status')`), or a
cancellation (`router.put('/:id/cancel')`), each with arbitrary request
data and collaborator behaviour. -/
inductive StoreStep : List Booking → List Booking → Prop
  | create (tutor : TutorProfile) (calendarOk : Bool) (studentId nextId : ℕ)
      (r : BookingReq) (s : List Booking) :
      StoreStep s (createBooking tutor calendarOk studentId nextId s r).2
  | update (bid : ℕ) (newStatus : String) (s : List Booking) :
      StoreStep s (updateBookingStatus s bid newStatus)
  | cancel (bid : ℕ) (reason role : String) (now : ℕ) (s : List Booking) :
      StoreStep s (cancelBooking s bid reason role now).2

/-- Booking-store states reachable from the empty store. -/
def Reachable (s : List Booking) : Prop := Relation.ReflTransGen StoreStep [] s

/-- `StoreStep` restricted to create requests whose time strings are in
zero-padded `HH:MM` form. -/
inductive StoreStepPadded : List Booking → List Booking → Prop
  | create (tutor : TutorProfile) (calendarOk : Bool) (studentId nextId : ℕ)
      (r : BookingReq) (s : List Booking)
      (hs : isPadded r.startTime = true) (he : isPadded r.endTime = true) :
      StoreStepPadded s (createBooking tutor calendarOk studentId nextId s r).2
  | update (bid : ℕ) (newStatus : String) (s : List Booking) :
      StoreStepPadded s (updateBookingStatus s bid newStatus)
  | cancel (bid : ℕ) (reason role : String) (now : ℕ) (s : List Booking) :
      StoreStepPadded s (cancelBooking s bid reason role now).2

/-- Reachability from the empty store when every create request carries
zero-padded time strings. -/
def ReachablePadded (s : List Booking) : Prop :=
  Relation.ReflTransGen StoreStepPadded [] s

/-- Two stored bookings do not chronologically overlap when active for the
same tutor on the same date: the spec's invariant, read on minutes of day. -/
def BookingNoOverlap (b1 b2 : Booking) : Prop :=
  b1.tutor = b2.tutor → b1.scheduledDate = b2.scheduledDate →
  isActiveStatus b1.status = true → isActiveStatus b2.status = true →
  ¬ intervalsOverlap (toMinutes b1.startTime) (toMinutes b1.endTime)
      (toMinutes b2.startTime) (toMinutes b2.endTime)

/-- The store invariant: active bookings of one tutor and date are
pairwise non-overlapping on their `[start, end)` minute intervals. -/
def StoreInv (s : List Booking) : Prop := s.Pairwise BookingNoOverlap

/-- Every stored booking's time strings are zero-padded. -/
def AllPadded (s : List Booking) : Prop :=
  ∀ b ∈ s, isPadded b.startTime = true ∧ isPadded b.endTime = true

instance (b1 b2 : Booking) : Decidable (BookingNoOverlap b1 b2) := by
  unfold BookingNoOverlap; infer_instance

instance (s : List Booking) : Decidable (StoreInv s) := by
  unfold StoreInv; infer_instance

/-- Substring test on character lists. -/
def containsSub (pat : List Char) : List Char → Bool
  | [] => pat.isEmpty
  | c :: rest => pat.isPrefixOf (c :: rest) || containsSub pat rest

/-- `new RegExp(pat, 'i').test(hay)` for a literal pattern:
case-insensitive substring containment. -/
def iContains (hay pat : String) : Bool :=
  containsSub (lowerStr pat) (lowerStr hay)

/-- The tutor document fields the search route of `src/admin.js`
(lines 896-1106) reads: availability flag, KYC verification status,
subject offerings, teaching modes, rating average, experience years, bio.
Coordinates live on the joined user document and are supplied separately. -/
structure TutorDoc where
  tid : ℕ
  isAvailableForBooking : Bool
  verificationStatus : String
  subjects : List Subject
  teachingModes : List String
  ratingAverage : ℚ
  experienceYears : ℚ
  bio : String
deriving DecidableEq

/-- The optional query filters of the tutor search route. -/
structure SearchFilters where
  search : Option String
  subject : Option String
  className : Option String
  board : Option String
  teachingMode : Option String
  minRating : Option ℚ
  maxPrice : Option ℚ
deriving DecidableEq

/-- Apply a check to an optional filter value; an absent filter passes. -/
def optCheck {α : Type} (o : Option α) (f : α → Bool) : Bool :=
  match o with
  | none => true
  | some v => f v

/-- The MongoDB query object built by the search route (`src/admin.js`
lines 936-978) evaluated on one tutor document.  Each dot-path condition
on the `subjects` array (`subjects.name`, `subjects.classes`,
`subjects.boards`, `subjects.pricePerHour`) is satisfied when SOME array
element satisfies it, independently of the elements satisfying the other
conditions — the query uses no `$elemMatch`. -/
def matchesQuery (f : SearchFilters) (t : TutorDoc) : Bool :=
  t.isAvailableForBooking &&
  (t.verificationStatus == "verified") &&
  optCheck f.search (fun s =>
    t.subjects.any (fun sub => iContains sub.name s) || iContains t.bio s) &&
  optCheck f.subject (fun s => t.subjects.any (fun sub => iContains sub.name s)) &&
  optCheck f.className (fun c => t.subjects.any (fun sub => sub.classes.contains c)) &&
  optCheck f.board (fun b => t.subjects.any (fun sub => sub.boards.contains b)) &&
  optCheck f.teachingMode (fun m => t.teachingModes.contains m) &&
  optCheck f.minRating (fun r => decide (r ≤ t.ratingAverage)) &&
  optCheck f.maxPrice (fun p => t.subjects.any (fun sub => decide (sub.pricePerHour ≤ p)))

/-- Rating-descending comparison used by the `rating` (and default) branch
of the sort switch (`tutors.sort((a, b) => b.rating.average -
a.rating.average)`), on distance-annotated documents. -/
def ratingGE (a b : TutorDoc × ℝ) : Prop := b.1.ratingAverage ≤ a.1.ratingAverage

instance : DecidableRel ratingGE := fun a b =>
  inferInstanceAs (Decidable (b.1.ratingAverage ≤ a.1.ratingAverage))

instance : IsTotal (TutorDoc × ℝ) ratingGE :=
  ⟨fun a b => le_total b.1.ratingAverage a.1.ratingAverage⟩

instance : IsTrans (TutorDoc × ℝ) ratingGE :=
  ⟨fun _ _ _ h1 h2 => le_trans h2 h1⟩

/-- The default branch of the sort switch of the search route
(`src/admin.js` lines 1058-1087): a stable sort by rating average
descending, and by nothing else.  Node's `Array.prototype.sort` is
stable; insertion sort with the same comparison reproduces it. -/
def sortByRatingDesc (l : List (TutorDoc × ℝ)) : List (TutorDoc × ℝ) :=
  List.insertionSort ratingGE l

/-- `Array.prototype.slice(startIndex, endIndex)`. -/
def listSlice {α : Type} (startIndex endIndex : ℕ) (l : List α) : List α :=
  (l.drop startIndex).take (endIndex - startIndex)

/-- The pagination block of the search response (`src/admin.js` lines
1094-1104): `totalPages = Math.ceil(tutors.length / limit)` (written as
`(total + limit - 1) / limit`, the value `Math.ceil` takes for a positive
integer `limit`), `hasNext = endIndex < tutors.length`,
`hasPrev = startIndex > 0` with `startIndex = (page-1)*limit` and
`endIndex = page*limit`. -/
structure SearchPagination where
  currentPage : ℕ
  totalPages : ℕ
  totalTutors : ℕ
  hasNext : Bool
  hasPrev : Bool
deriving DecidableEq

/-- Pagination fields computed from the sorted list length. -/
def mkPagination (total page limit : ℕ) : SearchPagination :=
  { currentPage := page
    totalPages := (total + limit - 1) / limit
    totalTutors := total
    hasNext := decide (page * limit < total)
    hasPrev := decide (0 < (page - 1) * limit) }

/-- The location-based candidate selection of the search route
(`src/admin.js` lines 980-1013): tutors passing the query whom the
document store's `$near`/`$maxDistance` spatial pre-filter admits.  The
pre-filter is the store's, not the engine's; it is passed in as
`nearApprox`. -/
def geoCandidates (store : List TutorDoc) (f : SearchFilters)
    (nearApprox : TutorDoc → Bool) : List TutorDoc :=
  store.filter (fun t => matchesQuery f t && nearApprox t)

/-- The `$addFields` distance of the search aggregation (`src/admin.js`
lines 1014-1047): a flat-earth (equirectangular) approximation,
`sqrt((dLat * 111.32)^2 + (dLng * 111.32 * cos(lat * pi/180))^2) / 1`,
where `coords t = (longitude, latitude)` is the joined user document's
`location.coordinates` array. -/
noncomputable def distanceField (lat lng : ℝ) (coords : TutorDoc → ℝ × ℝ)
    (t : TutorDoc) : ℝ :=
  Real.sqrt ((((coords t).2 - lat) * 111.32) ^ 2 +
      (((coords t).1 - lng) * (111.32 * Real.cos (lat * (Real.pi / 180)))) ^ 2) / 1

/-- The location-based search pipeline for the default sort key: match
query plus spatial pre-filter, annotate each candidate with the
`$addFields` distance, sort by rating descending, then slice
`[(page-1)*limit, page*limit)` and build the pagination block
(`src/admin.js` lines 980-1106). -/
noncomputable def tutorSearchGeo (store : List TutorDoc) (f : SearchFilters)
    (nearApprox : TutorDoc → Bool) (lat lng : ℝ) (coords : TutorDoc → ℝ × ℝ)
    (page limit : ℕ) : List (TutorDoc × ℝ) × SearchPagination :=
  let annotated := (geoCandidates store f nearApprox).map
    (fun t => (t, distanceField lat lng coords t))
  let sorted := sortByRatingDesc annotated
  (listSlice ((page - 1) * limit) (page * limit) sorted,
   mkPagination sorted.length page limit)

/-- `toRadians` of `src/locationService.js` (lines 157-159). -/
noncomputable def toRadians (degrees : ℝ) : ℝ := degrees * (Real.pi / 180)

/-- JavaScript's `Math.atan2(y, x)` on real inputs. -/
noncomputable def jsAtan2 (y x : ℝ) : ℝ :=
  if 0 < x then Real.arctan (y / x)
  else if x < 0 ∧ 0 ≤ y then Real.arctan (y / x) + Real.pi
  else if x < 0 then Real.arctan (y / x) - Real.pi
  else if 0 < y then Real.pi / 2
  else if y < 0 then -(Real.pi / 2)
  else 0

/-- `calculateHaversineDistance` of `src/locationService.js` (lines
143-154): haversine on a sphere of radius 6371 km, rounded to 2 decimal
places (`Math.round(distance * 100) / 100`; JavaScript's `Math.round` is
floor of the value plus one half). -/
noncomputable def calculateHaversineDistance (lat1 lon1 lat2 lon2 : ℝ) : ℝ :=
  let R : ℝ := 6371
  let dLat := toRadians (lat2 - lat1)
  let dLon := toRadians (lon2 - lon1)
  let a := Real.sin (dLat / 2) * Real.sin (dLat / 2) +
    Real.cos (toRadians lat1) * Real.cos (toRadians lat2) *
      Real.sin (dLon / 2) * Real.sin (dLon / 2)
  let c := 2 * jsAtan2 (Real.sqrt a) (Real.sqrt (1 - a))
  let distance := R * c
  (round (distance * 100) : ℤ) / 100

/-- Definition following the claim's words, for comparison with the code:
a subject offering "matches the request's subject/class/board filters"
when its name contains the subject filter (case-insensitively), its class
list contains the class filter, and its board list contains the board
filter, absent filters passing. -/
def offeringMatchesFilters (f : SearchFilters) (sub : Subject) : Bool :=
  optCheck f.subject (fun s => iContains sub.name s) &&
  optCheck f.className (fun c => sub.classes.contains c) &&
  optCheck f.board (fun b => sub.boards.contains b)

/-- A mathematics offering for class 10, CBSE. -/
def mathSubject : Subject :=
  { name := "Math", classes := ["10"], boards := ["CBSE"], pricePerHour := 600 }

/-- A bookable tutor teaching `mathSubject`. -/
def tutorA : TutorProfile := { isAvailableForBooking := true, subjects := [mathSubject] }

/-- A create request with a one-digit-hour start time, `9:00-10:00`. -/
def reqNineUnpadded : BookingReq :=
  { tutorId := 1, sessionType := "regular", subject := "Math", className := "10"
    board := "CBSE", scheduledDate := 100, startTime := "9:00", endTime := "10:00"
    duration := 60, mode := "online" }

/-- A create request with zero-padded times `09:30-09:45`, chronologically
inside `9:00-10:00`. -/
def reqNineThirtyPadded : BookingReq :=
  { tutorId := 1, sessionType := "regular", subject := "Math", className := "10"
    board := "CBSE", scheduledDate := 100, startTime := "09:30", endTime := "09:45"
    duration := 30, mode := "online" }

/-- A create request whose session window `23:00 + 120min` crosses
midnight. -/
def reqCrossMidnight : BookingReq :=
  { tutorId := 1, sessionType := "regular", subject := "Math", className := "10"
    board := "CBSE", scheduledDate := 100, startTime := "23:00", endTime := "01:00"
    duration := 120, mode := "online" }

/-- The store after creating `reqNineUnpadded` on an empty store. -/
def mixedStore1 : List Booking := (createBooking tutorA true 1 1 [] reqNineUnpadded).2

/-- The store after additionally creating `reqNineThirtyPadded`. -/
def mixedStore2 : List Booking :=
  (createBooking tutorA true 1 2 mixedStore1 reqNineThirtyPadded).2

/-- A stored scheduled booking at day 1, `10:00-11:00`, total 944. -/
def bookingTen : Booking :=
  { id := 1, student := 1, tutor := 1, subject := "Math", className := "10"
    board := "CBSE", scheduledDate := 1, startTime := "10:00", endTime := "11:00"
    duration := 60, status := "scheduled", pricing := computePrice 800 60
    cancellation := none }

/-- Search filters all absent. -/
def emptyFilters : SearchFilters :=
  { search := none, subject := none, className := none, board := none
    teachingMode := none, minRating := none, maxPrice := none }

/-- Filters requesting Math for class 10 with a price ceiling of 500. -/
def filtersMaxPrice : SearchFilters :=
  { search := none, subject := some "Math", className := some "10", board := none
    teachingMode := none, minRating := none, maxPrice := some 500 }

/-- A verified, bookable tutor document with the given id, rating and
subjects and nothing else. -/
def plainTutor (tid : ℕ) (rating : ℚ) (subjects : List Subject) : TutorDoc :=
  { tid := tid, isAvailableForBooking := true, verificationStatus := "verified"
    subjects := subjects, teachingModes := [], ratingAverage := rating
    experienceYears := 0, bio := "" }

/-- A Math offering at 1000 per hour for class 10. -/
def mathCostly : Subject :=
  { name := "Math", classes := ["10"], boards := ["CBSE"], pricePerHour := 1000 }

/-- An Art offering at 100 per hour for class 5. -/
def artCheap : Subject :=
  { name := "Art", classes := ["5"], boards := ["CBSE"], pricePerHour := 100 }

/-- The tutor whose only Math offering costs 1000 but whose unrelated Art
offering costs 100. -/
def tutorCostlyMath : TutorDoc := plainTutor 3 4 [mathCostly, artCheap]

/-- Two equally rated tutors: id 1 two degrees of latitude from the
origin, id 2 one degree. -/
def tutorFar : TutorDoc := plainTutor 1 4 []

/-- See `tutorFar`. -/
def tutorNear : TutorDoc := plainTutor 2 4 []

/-- Coordinates (longitude, latitude) placing `tutorFar` at latitude 2 and
`tutorNear` at latitude 1, both on the prime meridian. -/
noncomputable def coordsMeridian : TutorDoc → ℝ × ℝ :=
  fun t => if t.tid = 1 then ((0 : ℝ), (2 : ℝ)) else ((0 : ℝ), (1 : ℝ))

/-- A verified, bookable tutor document at the North Pole. -/
def tutorPole : TutorDoc := plainTutor 7 5 []

/-- Coordinates placing every tutor at the North Pole (longitude 0,
latitude 90). -/
noncomputable def coordsPole : TutorDoc → ℝ × ℝ := fun _ => ((0 : ℝ), (90 : ℝ))

/-- A create request with zero-padded times `10:00-11:00`. -/
def reqTenPadded : BookingReq :=
  { tutorId := 1, sessionType := "regular", subject := "Math", className := "10"
    board := "CBSE", scheduledDate := 100, startTime := "10:00", endTime := "11:00"
    duration := 60, mode := "online" }

/-- The store after creating `reqTenPadded` on an empty store. -/
def paddedStore1 : List Booking := (createBooking tutorA true 1 1 [] reqTenPadded).2

theorem charEq_iff_toNat (a b : Char) : a = b ↔ a.toNat = b.toNat := by
  constructor
  · intro h; rw [h]
  · intro h
    have ha : Char.ofNat a.toNat = a := Char.ofNat_toNat a
    have hb : Char.ofNat b.toNat = b := Char.ofNat_toNat b
    rw [← ha, ← hb, h]

theorem lexLt_padded (la lb : List Char) (ha : paddedL la = true) (hb : paddedL lb = true) :
    lexLt la lb = true ↔ minutesL la < minutesL lb := by
  rcases la with _ | ⟨a1, _ | ⟨a2, _ | ⟨a3, _ | ⟨a4, _ | ⟨a5, _ | ⟨a6, arest⟩⟩⟩⟩⟩⟩ <;>
    rcases lb with _ | ⟨b1, _ | ⟨b2, _ | ⟨b3, _ | ⟨b4, _ | ⟨b5, _ | ⟨b6, brest⟩⟩⟩⟩⟩⟩ <;>
    first
    | (simp only [paddedL, Bool.and_eq_true, Bool.or_eq_true, decide_eq_true_eq] at ha hb
       simp only [lexLt, minutesL, Bool.or_eq_true, Bool.and_eq_true, decide_eq_true_eq,
         Bool.false_eq_true, and_false, or_false]
       omega)
    | simp [paddedL] at ha hb

theorem lexEq_padded (la lb : List Char) (ha : paddedL la = true) (hb : paddedL lb = true) :
    la = lb ↔ minutesL la = minutesL lb := by
  rcases la with _ | ⟨a1, _ | ⟨a2, _ | ⟨a3, _ | ⟨a4, _ | ⟨a5, _ | ⟨a6, arest⟩⟩⟩⟩⟩⟩ <;>
    rcases lb with _ | ⟨b1, _ | ⟨b2, _ | ⟨b3, _ | ⟨b4, _ | ⟨b5, _ | ⟨b6, brest⟩⟩⟩⟩⟩⟩ <;>
    first
    | (simp only [paddedL, Bool.and_eq_true, Bool.or_eq_true, decide_eq_true_eq] at ha hb
       simp only [minutesL, List.cons.injEq, and_true]
       rw [charEq_iff_toNat a1 b1, charEq_iff_toNat a2 b2, charEq_iff_toNat a3 b3,
         charEq_iff_toNat a4 b4, charEq_iff_toNat a5 b5]
       omega)
    | simp [paddedL] at ha hb

theorem strLt_padded (a b : String) (ha : isPadded a = true) (hb : isPadded b = true) :
    strLt a b = true ↔ toMinutes a < toMinutes b :=
  lexLt_padded a.toList b.toList ha hb

theorem strLe_padded (a b : String) (ha : isPadded a = true) (hb : isPadded b = true) :
    strLe a b = true ↔ toMinutes a ≤ toMinutes b := by
  unfold strLe
  simp only [Bool.or_eq_true, decide_eq_true_eq]
  rw [lexLt_padded a.toList b.toList ha hb, lexEq_padded a.toList b.toList ha hb]
  unfold toMinutes
  omega

theorem overlapClauses_of_overlap (S E s e : ℕ) (h : intervalsOverlap S E s e) :
    overlapClauses S E s e := by
  unfold intervalsOverlap at h; unfold overlapClauses; omega

theorem strClauses_padded (S E s e : String) (hS : isPadded S = true)
    (hE : isPadded E = true) (hs : isPadded s = true) (he : isPadded e = true) :
    ((strLe S s && strLt s E) || (strLt S e && strLe e E) ||
      (strLe s S && strLe E e)) = true ↔
    overlapClauses (toMinutes S) (toMinutes E) (toMinutes s) (toMinutes e) := by
  have h1 := strLe_padded S s hS hs
  have h2 := strLt_padded s E hs hE
  have h3 := strLt_padded S e hS he
  have h4 := strLe_padded e E he hE
  have h5 := strLe_padded s S hs hS
  have h6 := strLe_padded E e hE he
  simp only [Bool.or_eq_true, Bool.and_eq_true, h1, h2, h3, h4, h5, h6, overlapClauses]
  omega

theorem conflictsWith_of_overlap (tutorId date : ℕ) (s e : String) (b : Booking)
    (hbs : isPadded b.startTime = true) (hbe : isPadded b.endTime = true)
    (hs : isPadded s = true) (he : isPadded e = true)
    (ht : b.tutor = tutorId) (hd : b.scheduledDate = date)
    (hact : isActiveStatus b.status = true)
    (hov : intervalsOverlap (toMinutes b.startTime) (toMinutes b.endTime)
      (toMinutes s) (toMinutes e)) :
    conflictsWith tutorId date s e b = true := by
  unfold conflictsWith
  simp only [Bool.and_eq_true, beq_iff_eq]
  refine ⟨⟨⟨ht, hd⟩, ?_⟩, hact⟩
  rw [strClauses_padded b.startTime b.endTime s e hbs hbe hs he]
  exact overlapClauses_of_overlap _ _ _ _ hov

theorem hasConflict_of_overlap (store : List Booking) (tutorId date : ℕ) (s e : String)
    (hs : isPadded s = true) (he : isPadded e = true) (x : Booking) (hx : x ∈ store)
    (hxs : isPadded x.startTime = true) (hxe : isPadded x.endTime = true)
    (ht : x.tutor = tutorId) (hd : x.scheduledDate = date)
    (hact : isActiveStatus x.status = true)
    (hov : intervalsOverlap (toMinutes x.startTime) (toMinutes x.endTime)
      (toMinutes s) (toMinutes e)) :
    hasConflict store tutorId date s e = true := by
  unfold hasConflict
  rw [List.any_eq_true]
  exact ⟨x, hx, conflictsWith_of_overlap tutorId date s e x hxs hxe hs he ht hd hact hov⟩

theorem transition_into_active (f t : String) (hall : transitionAllowed f t = true)
    (htar : allowedStatusTargets.contains t = true)
    (hact : isActiveStatus t = true) : isActiveStatus f = true := by
  unfold transitionAllowed at hall
  split at hall <;>
    first
    | rfl
    | simp_all [isActiveStatus, allowedStatusTargets]

theorem applyStatusUpdate_startTime (bid : ℕ) (ns : String) (b : Booking) :
    (applyStatusUpdate bid ns b).startTime = b.startTime := by
  unfold applyStatusUpdate; split <;> rfl

theorem applyStatusUpdate_endTime (bid : ℕ) (ns : String) (b : Booking) :
    (applyStatusUpdate bid ns b).endTime = b.endTime := by
  unfold applyStatusUpdate; split <;> rfl

theorem applyStatusUpdate_tutor (bid : ℕ) (ns : String) (b : Booking) :
    (applyStatusUpdate bid ns b).tutor = b.tutor := by
  unfold applyStatusUpdate; split <;> rfl

theorem applyStatusUpdate_scheduledDate (bid : ℕ) (ns : String) (b : Booking) :
    (applyStatusUpdate bid ns b).scheduledDate = b.scheduledDate := by
  unfold applyStatusUpdate; split <;> rfl

theorem applyStatusUpdate_active (bid : ℕ) (ns : String) (b : Booking)
    (htar : allowedStatusTargets.contains ns = true)
    (hact : isActiveStatus (applyStatusUpdate bid ns b).status = true) :
    isActiveStatus b.status = true := by
  unfold applyStatusUpdate at hact
  split at hact
  · next hcond =>
      simp only [Bool.and_eq_true] at hcond
      exact transition_into_active b.status ns hcond.2 htar hact
  · exact hact

theorem allPadded_update (s : List Booking) (bid : ℕ) (ns : String)
    (hp : AllPadded s) : AllPadded (updateBookingStatus s bid ns) := by
  unfold updateBookingStatus
  split
  · exact hp
  · intro b hb
    rcases List.mem_map.mp hb with ⟨x, hx, rfl⟩
    rw [applyStatusUpdate_startTime, applyStatusUpdate_endTime]
    exact hp x hx

theorem storeInv_update (s : List Booking) (bid : ℕ) (ns : String)
    (hinv : StoreInv s) : StoreInv (updateBookingStatus s bid ns) := by
  unfold updateBookingStatus
  split
  · exact hinv
  · next hguard =>
      have htar : allowedStatusTargets.contains ns = true := by
        simp only [Bool.not_eq_true', Bool.not_eq_false] at hguard
        exact hguard
      refine hinv.map (applyStatusUpdate bid ns) ?_
      intro a b hR htut hdate hact1 hact2
      rw [applyStatusUpdate_startTime, applyStatusUpdate_endTime,
        applyStatusUpdate_startTime, applyStatusUpdate_endTime]
      rw [applyStatusUpdate_tutor, applyStatusUpdate_tutor] at htut
      rw [applyStatusUpdate_scheduledDate, applyStatusUpdate_scheduledDate] at hdate
      exact hR htut hdate (applyStatusUpdate_active bid ns a htar hact1)
        (applyStatusUpdate_active bid ns b htar hact2)

theorem allPadded_cancel (s : List Booking) (bid : ℕ) (reason role : String) (now : ℕ)
    (hp : AllPadded s) : AllPadded (cancelBooking s bid reason role now).2 := by
  unfold cancelBooking
  cases hfind : s.find? (fun b => b.id == bid) with
  | none => exact hp
  | some b =>
      dsimp only
      cases hc : canBeCancelled b now with
      | false =>
          simp only [Bool.not_false, if_true]
          exact hp
      | true =>
          simp only [Bool.not_true, Bool.false_eq_true, if_false]
          intro x hx
          rcases List.mem_map.mp hx with ⟨y, hy, rfl⟩
          by_cases hid : (y.id == bid) = true
          · rw [if_pos hid]
            have hb : b ∈ s := List.mem_of_find?_eq_some hfind
            exact hp b hb
          · rw [if_neg hid]
            exact hp y hy

theorem storeInv_cancel (s : List Booking) (bid : ℕ) (reason role : String) (now : ℕ)
    (hinv : StoreInv s) : StoreInv (cancelBooking s bid reason role now).2 := by
  unfold cancelBooking
  cases hfind : s.find? (fun b => b.id == bid) with
  | none => exact hinv
  | some b =>
      dsimp only
      cases hc : canBeCancelled b now with
      | false =>
          simp only [Bool.not_false, if_true]
          exact hinv
      | true =>
          simp only [Bool.not_true, Bool.false_eq_true, if_false]
          refine hinv.map _ ?_
          intro x y hR htut hdate hact1 hact2
          by_cases hx : (x.id == bid) = true
          · rw [if_pos hx] at hact1
            simp [cancelledBooking, isActiveStatus] at hact1
          · rw [if_neg hx] at hact1 htut hdate ⊢
            by_cases hy : (y.id == bid) = true
            · rw [if_pos hy] at hact2
              simp [cancelledBooking, isActiveStatus] at hact2
            · rw [if_neg hy] at hact2 htut hdate ⊢
              exact hR htut hdate hact1 hact2

theorem createBooking_cases (tutor : TutorProfile) (calendarOk : Bool)
    (studentId nextId : ℕ) (store : List Booking) (r : BookingReq) :
    (createBooking tutor calendarOk studentId nextId store r).2 = store ∨
    (validateBookingReq r = true ∧
     hasConflict store r.tutorId r.scheduledDate r.startTime r.endTime = false ∧
     ∃ sub, findTutorSubject tutor r.subject r.className r.board = some sub ∧
       (createBooking tutor calendarOk studentId nextId store r).2 =
         store ++ [mkBooking nextId studentId r sub.pricePerHour]) := by
  unfold createBooking
  cases hv : validateBookingReq r with
  | false => left; rfl
  | true =>
      cases ha : tutor.isAvailableForBooking with
      | false => left; rfl
      | true =>
          cases hfind : findTutorSubject tutor r.subject r.className r.board with
          | none => left; rfl
          | some sub =>
              cases hcal : calendarOk with
              | false => left; rfl
              | true =>
                  cases hc : hasConflict store r.tutorId r.scheduledDate r.startTime r.endTime with
                  | true => left; simp
                  | false =>
                      right
                      exact ⟨rfl, rfl, sub, rfl, by simp⟩

theorem mkBooking_fields (nextId studentId : ℕ) (r : BookingReq) (p : ℚ) :
    (mkBooking nextId studentId r p).startTime = r.startTime ∧
    (mkBooking nextId studentId r p).endTime = r.endTime ∧
    (mkBooking nextId studentId r p).tutor = r.tutorId ∧
    (mkBooking nextId studentId r p).scheduledDate = r.scheduledDate ∧
    (mkBooking nextId studentId r p).status = "scheduled" :=
  ⟨rfl, rfl, rfl, rfl, rfl⟩

theorem allPadded_create (tutor : TutorProfile) (calendarOk : Bool)
    (studentId nextId : ℕ) (store : List Booking) (r : BookingReq)
    (hp : AllPadded store) (hs : isPadded r.startTime = true)
    (he : isPadded r.endTime = true) :
    AllPadded (createBooking tutor calendarOk studentId nextId store r).2 := by
  rcases createBooking_cases tutor calendarOk studentId nextId store r with
    h | ⟨_, _, sub, _, h⟩
  · rw [h]; exact hp
  · rw [h]
    intro b hb
    rcases List.mem_append.mp hb with hb1 | hb2
    · exact hp b hb1
    · rcases List.mem_singleton.mp hb2 with rfl
      exact ⟨hs, he⟩

theorem storeInv_create (tutor : TutorProfile) (calendarOk : Bool)
    (studentId nextId : ℕ) (store : List Booking) (r : BookingReq)
    (hp : AllPadded store) (hinv : StoreInv store) (hs : isPadded r.startTime = true)
    (he : isPadded r.endTime = true) :
    StoreInv (createBooking tutor calendarOk studentId nextId store r).2 := by
  rcases createBooking_cases tutor calendarOk studentId nextId store r with
    h | ⟨_, hc, sub, _, h⟩
  · rw [h]; exact hinv
  · rw [h]
    unfold StoreInv
    rw [List.pairwise_append]
    refine ⟨hinv, List.pairwise_singleton _ _, ?_⟩
    intro x hx b hb
    rcases List.mem_singleton.mp hb with rfl
    intro htut hdate hactx hactb hov
    have hconf : hasConflict store r.tutorId r.scheduledDate r.startTime r.endTime = true := by
      refine hasConflict_of_overlap store r.tutorId r.scheduledDate r.startTime r.endTime
        hs he x hx (hp x hx).1 (hp x hx).2 ?_ ?_ hactx ?_
      · exact htut
      · exact hdate
      · exact hov
    rw [hconf] at hc
    exact Bool.true_eq_false.mp hc

theorem reachablePadded_inv (s : List Booking) (h : ReachablePadded s) :
    AllPadded s ∧ StoreInv s := by
  unfold ReachablePadded at h
  induction h with
  | refl =>
      refine ⟨?_, List.Pairwise.nil⟩
      intro b hb
      cases hb
  | tail hr hstep ih =>
      cases hstep with
      | create tutor calendarOk studentId nextId r sdum hs he =>
          exact ⟨allPadded_create _ _ _ _ _ _ ih.1 hs he,
            storeInv_create _ _ _ _ _ _ ih.1 ih.2 hs he⟩
      | update bid newStatus sdum =>
          exact ⟨allPadded_update _ bid newStatus ih.1, storeInv_update _ bid newStatus ih.2⟩
      | cancel bid reason role now sdum =>
          exact ⟨allPadded_cancel _ bid reason role now ih.1,
            storeInv_cancel _ bid reason role now ih.2⟩

theorem createBooking_rejects_overlap (tutor : TutorProfile) (calendarOk : Bool)
    (studentId nextId : ℕ) (store : List Booking) (r : BookingReq)
    (hp : AllPadded store) (hs : isPadded r.startTime = true)
    (he : isPadded r.endTime = true) (x : Booking) (hx : x ∈ store)
    (ht : x.tutor = r.tutorId) (hd : x.scheduledDate = r.scheduledDate)
    (hact : isActiveStatus x.status = true)
    (hov : intervalsOverlap (toMinutes x.startTime) (toMinutes x.endTime)
      (toMinutes r.startTime) (toMinutes r.endTime)) :
    isCreatedOutcome (createBooking tutor calendarOk studentId nextId store r).1 = false ∧
    (createBooking tutor calendarOk studentId nextId store r).2 = store ∧
    (validateBookingReq r = true → tutor.isAvailableForBooking = true →
      calendarOk = true →
      (∀ sub, findTutorSubject tutor r.subject r.className r.board = some sub →
        (createBooking tutor calendarOk studentId nextId store r).1 = .conflict)) := by
  have hconf : hasConflict store r.tutorId r.scheduledDate r.startTime r.endTime = true :=
    hasConflict_of_overlap store r.tutorId r.scheduledDate r.startTime r.endTime
      hs he x hx (hp x hx).1 (hp x hx).2 ht hd hact hov
  unfold createBooking
  cases hv : validateBookingReq r with
  | false => exact ⟨rfl, rfl, by intro h1; cases h1⟩
  | true =>
      cases ha : tutor.isAvailableForBooking with
      | false => exact ⟨rfl, rfl, by intro _ h2; cases h2⟩
      | true =>
          cases hfind : findTutorSubject tutor r.subject r.className r.board with
          | none =>
              refine ⟨rfl, rfl, ?_⟩
              intro _ _ _ sub hsub
              cases hsub
          | some sub =>
              cases hcal : calendarOk with
              | false => exact ⟨rfl, rfl, by intro _ _ h3; cases h3⟩
              | true =>
                  rw [hconf]
                  exact ⟨rfl, rfl, by intro _ _ _ sub2 _; rfl⟩

theorem timeFormat_of_padded (l : List Char) (h : paddedL l = true) :
    timeFormatL l = true := by
  rcases l with _ | ⟨a1, _ | ⟨a2, _ | ⟨a3, _ | ⟨a4, _ | ⟨a5, _ | ⟨a6, arest⟩⟩⟩⟩⟩⟩ <;>
    first
    | exact h
    | simp [paddedL] at h

/-- C1 (amended): starting from the empty store, when every create request
carries zero-padded `HH:MM` time strings, every reachable booking-store
state keeps the bookings of one tutor and date that are in {scheduled,
confirmed, in_progress} pairwise non-overlapping on their `[start, end)`
minute intervals; and a padded create request whose window overlaps a
stored active booking of that tutor and date is never persisted: the
store is unchanged, and when the prior gates (validation, tutor
availability, subject match, calendar) pass, the outcome is the conflict
rejection (HTTP 400, `Time slot is already booked`).  Without the padding
restriction the invariant fails (see the counterexample): the validator
also accepts one-digit hours, which the query's lexicographic string
comparison misorders. -/
theorem bookingStore_noOverlap_invariant (s : List Booking) (h : ReachablePadded s) :
    StoreInv s ∧
    (∀ (tutor : TutorProfile) (calendarOk : Bool) (studentId nextId : ℕ) (r : BookingReq),
      isPadded r.startTime = true → isPadded r.endTime = true →
      (∃ x ∈ s, x.tutor = r.tutorId ∧ x.scheduledDate = r.scheduledDate ∧
        isActiveStatus x.status = true ∧
        intervalsOverlap (toMinutes x.startTime) (toMinutes x.endTime)
          (toMinutes r.startTime) (toMinutes r.endTime)) →
      isCreatedOutcome (createBooking tutor calendarOk studentId nextId s r).1 = false ∧
      (createBooking tutor calendarOk studentId nextId s r).2 = s ∧
      (validateBookingReq r = true → tutor.isAvailableForBooking = true →
        calendarOk = true →
        ∀ sub, findTutorSubject tutor r.subject r.className r.board = some sub →
          (createBooking tutor calendarOk studentId nextId s r).1 = .conflict)) := by
  obtain ⟨hp, hinv⟩ := reachablePadded_inv s h
  refine ⟨hinv, ?_⟩
  intro tutor calendarOk studentId nextId r hs he hov
  rcases hov with ⟨x, hx, ht, hd, hact, hov⟩
  exact createBooking_rejects_overlap tutor calendarOk studentId nextId s r
    hp hs he x hx ht hd hact hov

/-- C1 witness: the single padded booking `10:00-11:00` is reachable, the
invariant holds there, and overlapping padded creates are rejected. -/
theorem bookingStore_noOverlap_invariant_witness :
    ReachablePadded paddedStore1 ∧
    (StoreInv paddedStore1 ∧
    (∀ (tutor : TutorProfile) (calendarOk : Bool) (studentId nextId : ℕ) (r : BookingReq),
      isPadded r.startTime = true → isPadded r.endTime = true →
      (∃ x ∈ paddedStore1, x.tutor = r.tutorId ∧ x.scheduledDate = r.scheduledDate ∧
        isActiveStatus x.status = true ∧
        intervalsOverlap (toMinutes x.startTime) (toMinutes x.endTime)
          (toMinutes r.startTime) (toMinutes r.endTime)) →
      isCreatedOutcome (createBooking tutor calendarOk studentId nextId paddedStore1 r).1 = false ∧
      (createBooking tutor calendarOk studentId nextId paddedStore1 r).2 = paddedStore1 ∧
      (validateBookingReq r = true → tutor.isAvailableForBooking = true →
        calendarOk = true →
        ∀ sub, findTutorSubject tutor r.subject r.className r.board = some sub →
          (createBooking tutor calendarOk studentId nextId paddedStore1 r).1 = .conflict))) := by
  have hreach : ReachablePadded paddedStore1 :=
    Relation.ReflTransGen.tail Relation.ReflTransGen.refl
      (StoreStepPadded.create tutorA true 1 1 reqTenPadded [] (by decide) (by decide))
  exact ⟨hreach, bookingStore_noOverlap_invariant paddedStore1 hreach⟩

/-- C1 counterexample: with the validator's one-digit-hour times the
invariant is violated on a reachable store: creating `9:00-10:00` and
then `09:30-09:45` for the same tutor and date both succeed, because the
conflict query's lexicographic string comparison misreads `9:00` as
later than `09:45`; the resulting store holds two overlapping scheduled
bookings. -/
theorem bookingStore_overlap_reachable :
    Reachable mixedStore2 ∧ ¬ StoreInv mixedStore2 := by
  constructor
  · have h1 : StoreStep [] mixedStore1 :=
      StoreStep.create tutorA true 1 1 reqNineUnpadded []
    have h2 : StoreStep mixedStore1 mixedStore2 :=
      StoreStep.create tutorA true 1 2 reqNineThirtyPadded mixedStore1
    exact Relation.ReflTransGen.tail (Relation.ReflTransGen.tail .refl h1) h2
  · decide

/-- C2 (amended): for proper intervals — stored `[S,E)` and candidate
`[s,e)` with `S < E` and `s < e` — the conflict query classifies a
candidate as conflicting with a stored booking exactly when the booking
is for the same tutor and date, its status is in {scheduled, confirmed,
in_progress}, and the intervals overlap (`S < e AND s < E`); stated for
zero-padded time strings, on which the query's string comparisons agree
with minute order.  For degenerate endpoints the equivalence fails (see
the counterexample). -/
theorem conflictQuery_matches_overlap (tutorId date : ℕ) (s e : String) (b : Booking)
    (hbs : isPadded b.startTime = true) (hbe : isPadded b.endTime = true)
    (hs : isPadded s = true) (he : isPadded e = true)
    (hprop1 : toMinutes b.startTime < toMinutes b.endTime)
    (hprop2 : toMinutes s < toMinutes e) :
    conflictsWith tutorId date s e b = true ↔
      (b.tutor = tutorId ∧ b.scheduledDate = date ∧ isActiveStatus b.status = true ∧
        intervalsOverlap (toMinutes b.startTime) (toMinutes b.endTime)
          (toMinutes s) (toMinutes e)) := by
  unfold conflictsWith
  simp only [Bool.and_eq_true, beq_iff_eq]
  rw [strClauses_padded b.startTime b.endTime s e hbs hbe hs he]
  unfold overlapClauses intervalsOverlap
  constructor
  · rintro ⟨⟨⟨ht, hd⟩, hcl⟩, hact⟩
    exact ⟨ht, hd, hact, by omega⟩
  · rintro ⟨ht, hd, hact, hov⟩
    exact ⟨⟨⟨ht, hd⟩, by omega⟩, hact⟩

/-- C2 witness: the booking `10:00-11:00` conflicts with the candidate
`10:30-11:30` and the equivalence holds there. -/
theorem conflictQuery_matches_overlap_witness :
    isPadded bookingTen.startTime = true ∧ isPadded bookingTen.endTime = true ∧
    isPadded "10:30" = true ∧ isPadded "11:30" = true ∧
    toMinutes bookingTen.startTime < toMinutes bookingTen.endTime ∧
    toMinutes "10:30" < toMinutes "11:30" ∧
    (conflictsWith 1 1 "10:30" "11:30" bookingTen = true ↔
      (bookingTen.tutor = 1 ∧ bookingTen.scheduledDate = 1 ∧
        isActiveStatus bookingTen.status = true ∧
        intervalsOverlap (toMinutes bookingTen.startTime) (toMinutes bookingTen.endTime)
          (toMinutes "10:30") (toMinutes "11:30"))) :=
  ⟨by decide, by decide, by decide, by decide, by decide, by decide,
    conflictQuery_matches_overlap 1 1 "10:30" "11:30" bookingTen
      (by decide) (by decide) (by decide) (by decide) (by decide) (by decide)⟩

/-- C2 counterexample: at the degenerate candidate `s = e` (the route
never checks `startTime < endTime`), the query's three-clause disjunction
holds while the overlap condition does not: stored `[600, 660)` against
candidate `[600, 600)`. -/
theorem conflictClauses_not_overlap :
    overlapClauses 600 660 600 600 ∧ ¬ intervalsOverlap 600 660 600 600 := by
  decide

/-- C3: the pricing snapshot satisfies `base = hourlyRate *
durationMinutes/60`, `tax = base * 0.18`, `total = base + tax`, and in
particular `computePrice 800 60 = {800, 144, 944}` and `computePrice 500
30 = {250, 45, 295}`. -/
theorem computePrice_correct :
    (∀ (hourlyRate : ℚ) (durationMinutes : ℕ),
      (computePrice hourlyRate durationMinutes).baseAmount =
        hourlyRate * ((durationMinutes : ℚ) / 60) ∧
      (computePrice hourlyRate durationMinutes).tax =
        (computePrice hourlyRate durationMinutes).baseAmount * 0.18 ∧
      (computePrice hourlyRate durationMinutes).totalAmount =
        (computePrice hourlyRate durationMinutes).baseAmount +
          (computePrice hourlyRate durationMinutes).tax) ∧
    computePrice 800 60 = ⟨800, 144, 944⟩ ∧
    computePrice 500 30 = ⟨250, 45, 295⟩ := by
  refine ⟨fun hourlyRate durationMinutes => ⟨rfl, rfl, rfl⟩, ?_, ?_⟩
  · simp only [computePrice, Pricing.mk.injEq]
    norm_num
  · simp only [computePrice, Pricing.mk.injEq]
    norm_num

/-- C9 (amended): no gate rejects a session window that crosses the
calendar-day boundary.  The validators constrain only each time field's
format and the duration range; when validation and the other gates pass
and no conflict exists, a booking is created even though
`startTime + duration` exceeds the day (1440 minutes). -/
theorem crossMidnight_not_rejected (tutor : TutorProfile) (calendarOk : Bool)
    (studentId nextId : ℕ) (store : List Booking) (r : BookingReq) (sub : Subject)
    (hv : validateBookingReq r = true) (ha : tutor.isAvailableForBooking = true)
    (hcal : calendarOk = true)
    (hfind : findTutorSubject tutor r.subject r.className r.board = some sub)
    (hnc : hasConflict store r.tutorId r.scheduledDate r.startTime r.endTime = false)
    (hcross : 1440 < toMinutes r.startTime + r.duration) :
    createBooking tutor calendarOk studentId nextId store r =
      (.created (mkBooking nextId studentId r sub.pricePerHour),
       store ++ [mkBooking nextId studentId r sub.pricePerHour]) := by
  unfold createBooking
  rw [hv, ha, hcal, hfind, hnc]
  rfl

/-- C9 witness: the request `23:00` start, 120-minute duration (window
ending `01:00` next day) passes every gate and is persisted. -/
theorem crossMidnight_not_rejected_witness :
    validateBookingReq reqCrossMidnight = true ∧
    tutorA.isAvailableForBooking = true ∧
    findTutorSubject tutorA reqCrossMidnight.subject reqCrossMidnight.className
      reqCrossMidnight.board = some mathSubject ∧
    hasConflict [] reqCrossMidnight.tutorId reqCrossMidnight.scheduledDate
      reqCrossMidnight.startTime reqCrossMidnight.endTime = false ∧
    1440 < toMinutes reqCrossMidnight.startTime + reqCrossMidnight.duration ∧
    createBooking tutorA true 1 1 [] reqCrossMidnight =
      (.created (mkBooking 1 1 reqCrossMidnight mathSubject.pricePerHour),
       [] ++ [mkBooking 1 1 reqCrossMidnight mathSubject.pricePerHour]) :=
  ⟨by decide, by decide, by decide, by decide, by decide,
    crossMidnight_not_rejected tutorA true 1 1 [] reqCrossMidnight mathSubject
      (by decide) (by decide) rfl (by decide) (by decide) (by decide)⟩

/-- C9 counterexample: the cross-midnight request is accepted, not
rejected with a validation error: it passes the validator chain and the
create pipeline persists a booking. -/
theorem crossMidnight_created :
    validateBookingReq reqCrossMidnight = true ∧
    1440 < toMinutes reqCrossMidnight.startTime + reqCrossMidnight.duration ∧
    isCreatedOutcome (createBooking tutorA true 1 1 [] reqCrossMidnight).1 = true ∧
    (createBooking tutorA true 1 1 [] reqCrossMidnight).2.length = 1 := by
  decide

/-- C10 (amended): on zero-padded `HH:MM` strings — the two-digit-hour
branch of the validator — the conflict query's lexicographic string
comparisons agree with chronological minute-of-day order; the validator
however also accepts one-digit hours, on which the two orders disagree
(see the counterexample). -/
theorem lexOrder_agrees_on_padded (a b : String)
    (ha : isPadded a = true) (hb : isPadded b = true) :
    isTimeFormat a = true ∧ isTimeFormat b = true ∧
    (strLt a b = true ↔ toMinutes a < toMinutes b) ∧
    (strLe a b = true ↔ toMinutes a ≤ toMinutes b) :=
  ⟨timeFormat_of_padded a.toList ha, timeFormat_of_padded b.toList hb,
    strLt_padded a b ha hb, strLe_padded a b ha hb⟩

/-- C10 witness: the padded pair `09:30`, `10:00`. -/
theorem lexOrder_agrees_on_padded_witness :
    isPadded "09:30" = true ∧ isPadded "10:00" = true ∧
    (isTimeFormat "09:30" = true ∧ isTimeFormat "10:00" = true ∧
      (strLt "09:30" "10:00" = true ↔ toMinutes "09:30" < toMinutes "10:00") ∧
      (strLe "09:30" "10:00" = true ↔ toMinutes "09:30" ≤ toMinutes "10:00")) :=
  ⟨by decide, by decide, lexOrder_agrees_on_padded "09:30" "10:00" (by decide) (by decide)⟩

/-- C10 counterexample: `9:30` and `10:00` are both accepted by the time
validator, yet the lexicographic comparison places `10:00` strictly
before `9:30` while chronologically `9:30` (570) precedes `10:00` (600). -/
theorem lexOrder_disagrees_unpadded :
    isTimeFormat "9:30" = true ∧ isTimeFormat "10:00" = true ∧
    strLt "10:00" "9:30" = true ∧ toMinutes "9:30" < toMinutes "10:00" := by
  decide

/-- C5: cancellation succeeds only when at least 2 hours (120 minutes)
remain before `scheduledDate + startTime`; a failing gate leaves the
store unchanged and returns the message stating the 2-hour rule; a
permitted cancellation stores a record with `refundEligible = true` and
refund equal to the full total paid, and sets the status to `cancelled`.
`Booking.canBeCancelled` and `Booking.calculateRefundAmount` are
modelled from the spec (the model file is not under `src/`). -/
theorem cancelBooking_policy (store : List Booking) (bid : ℕ) (reason role : String)
    (now : ℕ) (b : Booking)
    (hfind : store.find? (fun x => x.id == bid) = some b) :
    containsSub "2 hours".toList notCancellableMessage.toList = true ∧
    (now + 120 ≤ b.scheduledDate * 1440 + toMinutes b.startTime →
      cancelBooking store bid reason role now =
        (.cancelled b.pricing.totalAmount,
         store.map fun x => if x.id == bid then cancelledBooking b reason role now else x) ∧
      (cancelledBooking b reason role now).status = "cancelled" ∧
      (cancelledBooking b reason role now).cancellation =
        some { reason := reason, cancelledBy := role, cancelledAt := now
               refundEligible := true, refundAmount := b.pricing.totalAmount }) ∧
    (¬ (now + 120 ≤ b.scheduledDate * 1440 + toMinutes b.startTime) →
      cancelBooking store bid reason role now =
        (.notCancellable notCancellableMessage, store)) := by
  refine ⟨by decide, ?_, ?_⟩
  · intro hgate
    have hc : canBeCancelled b now = true := by
      unfold canBeCancelled
      exact decide_eq_true hgate
    constructor
    · unfold cancelBooking
      rw [hfind]
      dsimp only
      rw [hc]
      rfl
    · exact ⟨rfl, rfl⟩
  · intro hgate
    have hc : canBeCancelled b now = false := by
      unfold canBeCancelled
      exact decide_eq_false hgate
    unfold cancelBooking
    rw [hfind]
    dsimp only
    rw [hc]
    rfl

/-- C5 witness: cancelling the day-1 `10:00` booking at minute 0 (more
than 2 hours ahead) succeeds with the full 944 refund; the rejection
branch is vacuous there. -/
theorem cancelBooking_policy_witness :
    ([bookingTen].find? (fun x => x.id == 1) = some bookingTen) ∧
    (containsSub "2 hours".toList notCancellableMessage.toList = true ∧
    (0 + 120 ≤ bookingTen.scheduledDate * 1440 + toMinutes bookingTen.startTime →
      cancelBooking [bookingTen] 1 "sick" "student" 0 =
        (.cancelled bookingTen.pricing.totalAmount,
         [bookingTen].map fun x =>
           if x.id == 1 then cancelledBooking bookingTen "sick" "student" 0 else x) ∧
      (cancelledBooking bookingTen "sick" "student" 0).status = "cancelled" ∧
      (cancelledBooking bookingTen "sick" "student" 0).cancellation =
        some { reason := "sick", cancelledBy := "student", cancelledAt := 0
               refundEligible := true, refundAmount := bookingTen.pricing.totalAmount }) ∧
    (¬ (0 + 120 ≤ bookingTen.scheduledDate * 1440 + toMinutes bookingTen.startTime) →
      cancelBooking [bookingTen] 1 "sick" "student" 0 =
        (.notCancellable notCancellableMessage, [bookingTen]))) :=
  ⟨rfl, cancelBooking_policy [bookingTen] 1 "sick" "student" 0 bookingTen rfl⟩

theorem distanceField_far : distanceField 0 0 coordsMeridian tutorFar = 5566 / 25 := by
  unfold distanceField coordsMeridian tutorFar plainTutor
  norm_num
  rw [show (30980356:ℝ) = 5566 ^ 2 by norm_num]
  rw [show (625:ℝ) = 25 ^ 2 by norm_num]
  rw [Real.sqrt_sq (by norm_num : (0:ℝ) ≤ 5566), Real.sqrt_sq (by norm_num : (0:ℝ) ≤ 25)]

theorem distanceField_near : distanceField 0 0 coordsMeridian tutorNear = 2783 / 25 := by
  unfold distanceField coordsMeridian tutorNear plainTutor
  norm_num
  rw [show (7745089:ℝ) = 2783 ^ 2 by norm_num]
  rw [show (625:ℝ) = 25 ^ 2 by norm_num]
  rw [Real.sqrt_sq (by norm_num : (0:ℝ) ≤ 2783), Real.sqrt_sq (by norm_num : (0:ℝ) ≤ 25)]

/-- C6 counterexample: two equally rated tutors, the farther one first in
the store, keep that order in the default sort: the claimed
distance-ascending (and identity) tie-break does not exist. -/
theorem defaultSort_ignores_distance :
    ((tutorSearchGeo [tutorFar, tutorNear] emptyFilters (fun _ => true) 0 0 coordsMeridian
      1 10).1).map Prod.fst = [tutorFar, tutorNear] ∧
    tutorFar.ratingAverage = tutorNear.ratingAverage ∧
    distanceField 0 0 coordsMeridian tutorNear < distanceField 0 0 coordsMeridian tutorFar ∧
    tutorFar ≠ tutorNear := by
  refine ⟨rfl, rfl, ?_, by decide⟩
  rw [distanceField_near, distanceField_far]
  norm_num

theorem ceil_div_eq (N L : ℕ) (h : 1 ≤ L) : ((N + L - 1) / L : ℕ) = ⌈(N:ℚ)/(L:ℚ)⌉₊ := by
  have hL : 0 < L := h
  have hLQ : (0:ℚ) < L := by exact_mod_cast hL
  apply le_antisymm
  · have hle : (N:ℚ)/L ≤ (⌈(N:ℚ)/(L:ℚ)⌉₊ : ℚ) := Nat.le_ceil _
    have hN : N ≤ ⌈(N:ℚ)/(L:ℚ)⌉₊ * L := by
      have := (div_le_iff₀ hLQ).mp hle
      exact_mod_cast this
    have hlt : (N + L - 1) / L < ⌈(N:ℚ)/(L:ℚ)⌉₊ + 1 := by
      rw [Nat.div_lt_iff_lt_mul hL, add_one_mul]
      omega
    omega
  · rw [Nat.ceil_le, div_le_iff₀ hLQ]
    have hm := Nat.div_add_mod' (N + L - 1) L
    have hlt := Nat.mod_lt (N + L - 1) hL
    have : N ≤ ((N + L - 1) / L) * L := by omega
    exact_mod_cast this

/-- C7: pagination is a final slice of the sorted, fully filtered
sequence, and the pagination fields come from the filtered-set size `N`:
`currentPage = page`, `totalPages = ceil(N / limit)`, `totalTutors = N`,
`hasNext` holds exactly when `page * limit < N`, and `hasPrev` exactly
when `page > 1`. -/
theorem pagination_after_sort (store : List TutorDoc) (f : SearchFilters)
    (nearApprox : TutorDoc → Bool) (lat lng : ℝ) (coords : TutorDoc → ℝ × ℝ)
    (page limit : ℕ) (hl : 1 ≤ limit) (hp : 1 ≤ page) :
    (tutorSearchGeo store f nearApprox lat lng coords page limit).1 =
      listSlice ((page - 1) * limit) (page * limit)
        (sortByRatingDesc ((geoCandidates store f nearApprox).map
          (fun t => (t, distanceField lat lng coords t)))) ∧
    (tutorSearchGeo store f nearApprox lat lng coords page limit).2.currentPage = page ∧
    (tutorSearchGeo store f nearApprox lat lng coords page limit).2.totalTutors =
      (geoCandidates store f nearApprox).length ∧
    (tutorSearchGeo store f nearApprox lat lng coords page limit).2.totalPages =
      ⌈((geoCandidates store f nearApprox).length : ℚ) / (limit : ℚ)⌉₊ ∧
    ((tutorSearchGeo store f nearApprox lat lng coords page limit).2.hasNext = true ↔
      page * limit < (geoCandidates store f nearApprox).length) ∧
    ((tutorSearchGeo store f nearApprox lat lng coords page limit).2.hasPrev = true ↔
      1 < page) := by
  have hlen : (sortByRatingDesc ((geoCandidates store f nearApprox).map
      (fun t => (t, distanceField lat lng coords t)))).length =
      (geoCandidates store f nearApprox).length := by
    unfold sortByRatingDesc
    rw [(List.perm_insertionSort ratingGE _).length_eq, List.length_map]
  unfold tutorSearchGeo mkPagination
  refine ⟨rfl, rfl, hlen, ?_, ?_, ?_⟩
  · dsimp only
    rw [hlen]
    exact ceil_div_eq _ limit hl
  · dsimp only
    rw [hlen]
    exact decide_eq_true_iff
  · dsimp only
    rw [decide_eq_true_iff]
    constructor
    · intro hgt
      by_contra hle
      have : page = 1 := by omega
      simp [this] at hgt
    · intro hgt
      have : 1 ≤ page - 1 := by omega
      calc 0 < 1 * limit := by omega
        _ ≤ (page - 1) * limit := Nat.mul_le_mul_right limit this

/-- C4 (amended): the engine performs no application-side distance
re-validation: a tutor is in the (pre-pagination) result sequence exactly
when it is in the store, matches the attribute query, and is admitted by
the document store's `$near` spatial pre-filter — independently of any
distance, haversine or otherwise.  The `distance` field it annotates is
the flat-earth `$addFields` value, not `calculateHaversineDistance`,
and nothing filters on it, so an out-of-radius candidate admitted by the
pre-filter is returned (see the counterexample). -/
theorem geoSearch_no_distance_check (store : List TutorDoc) (f : SearchFilters)
    (nearApprox : TutorDoc → Bool) (lat lng : ℝ) (coords : TutorDoc → ℝ × ℝ)
    (t : TutorDoc) :
    t ∈ (sortByRatingDesc ((geoCandidates store f nearApprox).map
        (fun u => (u, distanceField lat lng coords u)))).map Prod.fst ↔
      (t ∈ store ∧ (matchesQuery f t && nearApprox t) = true) := by
  constructor
  · intro hmem
    have h1 : t ∈ ((geoCandidates store f nearApprox).map
        (fun u => (u, distanceField lat lng coords u))).map Prod.fst :=
      ((List.perm_insertionSort ratingGE _).map Prod.fst).mem_iff.mp hmem
    rw [List.map_map] at h1
    simp only [List.mem_map, Function.comp] at h1
    rcases h1 with ⟨u, hu, rfl⟩
    exact List.mem_filter.mp hu
  · intro hq
    have h1 : t ∈ geoCandidates store f nearApprox := List.mem_filter.mpr hq
    have h2 : t ∈ ((geoCandidates store f nearApprox).map
        (fun u => (u, distanceField lat lng coords u))).map Prod.fst := by
      rw [List.map_map]
      simp only [List.mem_map, Function.comp]
      exact ⟨t, h1, rfl⟩
    exact ((List.perm_insertionSort ratingGE _).map Prod.fst).mem_iff.mpr h2

theorem haversinePole : 5 < calculateHaversineDistance 0 0 90 0 := by
  have hpi : (3:ℝ) < Real.pi := Real.pi_gt_three
  have hhalf : Real.sin (Real.pi / 4) * Real.sin (Real.pi / 4) = 1 / 2 := by
    rw [Real.sin_pi_div_four, div_mul_div_comm, Real.mul_self_sqrt (by norm_num)]
    norm_num
  have hpos : (0:ℝ) < Real.sqrt (1 / 2) := Real.sqrt_pos.mpr (by norm_num)
  unfold calculateHaversineDistance toRadians
  dsimp only
  rw [show ((90:ℝ) - 0) * (Real.pi / 180) / 2 = Real.pi / 4 by ring]
  rw [show ((0:ℝ) - 0) * (Real.pi / 180) / 2 = 0 by ring]
  rw [show (0:ℝ) * (Real.pi / 180) = 0 by ring]
  rw [show (90:ℝ) * (Real.pi / 180) = Real.pi / 2 by ring]
  rw [Real.sin_zero, Real.cos_zero, Real.cos_pi_div_two, hhalf]
  rw [show (1:ℝ) / 2 + 1 * 0 * 0 * 0 = 1 / 2 by ring]
  rw [show (1:ℝ) - 1 / 2 = 1 / 2 by norm_num]
  unfold jsAtan2
  rw [if_pos hpos]
  rw [div_self (ne_of_gt hpos), Real.arctan_one]
  rw [show (6371:ℝ) * (2 * (Real.pi / 4)) * 100 = 318550 * Real.pi by ring]
  rw [round_eq]
  have h501 : (501:ℤ) ≤ ⌊(318550:ℝ) * Real.pi + 1 / 2⌋ := by
    rw [Int.le_floor]
    push_cast
    nlinarith
  have hcast : ((501:ℤ):ℝ) ≤ (⌊(318550:ℝ) * Real.pi + 1 / 2⌋ : ℝ) := by
    exact_mod_cast h501
  push_cast at hcast
  linarith

/-- C4 counterexample: a search from the origin with radius 5 km whose
spatial pre-filter (over-)approximates by admitting everything returns
the North-Pole tutor, although the Distance Calculator
(`calculateHaversineDistance`, haversine on radius 6371) puts that tutor
farther than 5 km (about 10008 km): the engine never re-validates
distances before inclusion. -/
theorem outOfRadius_tutor_included :
    coordsPole tutorPole = ((0:ℝ), (90:ℝ)) ∧
    tutorPole ∈ ((tutorSearchGeo [tutorPole] emptyFilters (fun _ => true) 0 0 coordsPole
      1 10).1).map Prod.fst ∧
    5 < calculateHaversineDistance 0 0 90 0 := by
  refine ⟨rfl, ?_, haversinePole⟩
  have h : ((tutorSearchGeo [tutorPole] emptyFilters (fun _ => true) 0 0 coordsPole
      1 10).1).map Prod.fst = [tutorPole] := rfl
  rw [h]
  exact List.mem_singleton_self _

/-- C7 witness: page 2, limit 1 over the two-tutor store. -/
theorem pagination_after_sort_witness :
    (1 ≤ 1 ∧ 1 ≤ 2) ∧
    ((tutorSearchGeo [tutorFar, tutorNear] emptyFilters (fun _ => true) 0 0 coordsMeridian
        2 1).1 =
      listSlice ((2 - 1) * 1) (2 * 1)
        (sortByRatingDesc ((geoCandidates [tutorFar, tutorNear] emptyFilters
          (fun _ => true)).map (fun t => (t, distanceField 0 0 coordsMeridian t)))) ∧
    (tutorSearchGeo [tutorFar, tutorNear] emptyFilters (fun _ => true) 0 0 coordsMeridian
        2 1).2.currentPage = 2 ∧
    (tutorSearchGeo [tutorFar, tutorNear] emptyFilters (fun _ => true) 0 0 coordsMeridian
        2 1).2.totalTutors =
      (geoCandidates [tutorFar, tutorNear] emptyFilters (fun _ => true)).length ∧
    (tutorSearchGeo [tutorFar, tutorNear] emptyFilters (fun _ => true) 0 0 coordsMeridian
        2 1).2.totalPages =
      ⌈((geoCandidates [tutorFar, tutorNear] emptyFilters (fun _ => true)).length : ℚ) /
        ((1:ℕ) : ℚ)⌉₊ ∧
    ((tutorSearchGeo [tutorFar, tutorNear] emptyFilters (fun _ => true) 0 0 coordsMeridian
        2 1).2.hasNext = true ↔
      2 * 1 < (geoCandidates [tutorFar, tutorNear] emptyFilters (fun _ => true)).length) ∧
    ((tutorSearchGeo [tutorFar, tutorNear] emptyFilters (fun _ => true) 0 0 coordsMeridian
        2 1).2.hasPrev = true ↔ 1 < 2)) :=
  ⟨⟨by decide, by decide⟩,
    pagination_after_sort [tutorFar, tutorNear] emptyFilters (fun _ => true) 0 0
      coordsMeridian 2 1 (by decide) (by decide)⟩

/-- C8 (amended): with a `maxPrice` filter present, the query admits a
tutor exactly when the other conditions hold and SOME subject offering —
not necessarily one matching the subject/class/board filters — has
`pricePerHour <= maxPrice`: the Mongo dot-path condition is evaluated
per array element, independently of the other `subjects` conditions. -/
theorem maxPrice_filter_any_offering (f : SearchFilters) (t : TutorDoc) (p : ℚ)
    (hmax : f.maxPrice = some p) :
    matchesQuery f t = true ↔
      (matchesQuery { f with maxPrice := none } t = true ∧
        ∃ sub ∈ t.subjects, sub.pricePerHour ≤ p) := by
  unfold matchesQuery
  rw [hmax]
  simp only [optCheck, Bool.and_eq_true, List.any_eq_true, decide_eq_true_eq]
  tauto

/-- C8 witness: the Math-for-1000 tutor passes the maxPrice-500 query
because of the unrelated Art-for-100 offering. -/
theorem maxPrice_filter_any_offering_witness :
    filtersMaxPrice.maxPrice = some 500 ∧
    (matchesQuery filtersMaxPrice tutorCostlyMath = true ↔
      (matchesQuery { filtersMaxPrice with maxPrice := none } tutorCostlyMath = true ∧
        ∃ sub ∈ tutorCostlyMath.subjects, sub.pricePerHour ≤ 500)) :=
  ⟨rfl, maxPrice_filter_any_offering filtersMaxPrice tutorCostlyMath 500 rfl⟩

/-- C8 counterexample: the tutor whose only offering matching the
subject/class filters costs 1000 is nevertheless included under
`maxPrice = 500`, through the non-matching Art offering priced 100. -/
theorem maxPrice_filter_counterexample :
    matchesQuery filtersMaxPrice tutorCostlyMath = true ∧
    (∀ sub ∈ tutorCostlyMath.subjects,
      offeringMatchesFilters filtersMaxPrice sub = true → ¬ (sub.pricePerHour ≤ 500)) := by
  decide

/-- C6 (amended): the default sort of the search route orders results by
rating average descending and by nothing else: the comparator reads only
`rating.average`, so the sorted sequence is a permutation of the
annotated candidates that is non-increasing in rating, and — the sort
being stable — equally rated tutors keep their store order; no distance
or identity tie-break exists (see the counterexample). -/
theorem defaultSort_rating_only (store : List TutorDoc) (f : SearchFilters)
    (nearApprox : TutorDoc → Bool) (lat lng : ℝ) (coords : TutorDoc → ℝ × ℝ) :
    List.Sorted ratingGE (sortByRatingDesc ((geoCandidates store f nearApprox).map
      (fun t => (t, distanceField lat lng coords t)))) ∧
    (sortByRatingDesc ((geoCandidates store f nearApprox).map
      (fun t => (t, distanceField lat lng coords t)))).Perm
      ((geoCandidates store f nearApprox).map
        (fun t => (t, distanceField lat lng coords t))) :=
  ⟨List.sorted_insertionSort ratingGE _, List.perm_insertionSort ratingGE _⟩
